import Mathlib

/-!
Verification development for the CodeSkip backend
(`backend/main.py`, `backend/ai/engine.py`).

The shallow embedding below translates the parts of the source that the
claims touch:

* `validate_ai_response` (main.py, lines 50-120): the response normalizer.
  Python strings become `List Char`/`String`; the regular expressions that
  the function uses are specialised to equivalent explicit scanners
  (each scanner's doc comment names the regex it implements).
* the websocket command dispatcher (`websocket_endpoint`, main.py,
  lines 156-314): modelled as a step function on the module-level state
  `(last_response_cache, last_capture_time, last_screenshot_data)`.
  Time is modelled in whole seconds as `Nat`.
* `AIClient.create_chat_completion` and `AIEngine.process`
  (engine.py): the HTTP transport is abstracted as an oracle
  `Nat → AttemptResult` giving the outcome of each attempt; exceptions
  become an `Except` value.
-/

namespace CodeSkip

/-! ### Character classes (Python `\s`, `\w`, backtick) -/

/-- Python whitespace as used by `str.strip` and the regex class `\s`
(ASCII range, which covers every input in this development). -/
def isPySpace (c : Char) : Bool :=
  c = ' ' || c = '\t' || c = '\n' || c = '\r' || c = '\x0b' || c = '\x0c'

/-- Python regex class `\w` restricted to ASCII: `[a-zA-Z0-9_]`. -/
def isWordChar (c : Char) : Bool :=
  c.isAlpha || c.isDigit || c = '_'

/-- The backtick character. -/
def btick : Char := Char.ofNat 96

/-- Python `str.strip()`: drop leading and trailing whitespace. -/
def stripChars (l : List Char) : List Char :=
  ((l.dropWhile isPySpace).reverse.dropWhile isPySpace).reverse

/-- `str.strip()` lifted to `String`. -/
def pyStrip (s : String) : String := ⟨stripChars s.data⟩

/-- Join a list of character lists with a separator
(Python `sep.join(parts)`). -/
def joinWith (sep : List Char) : List (List Char) → List Char
  | [] => []
  | [x] => x
  | x :: xs => x ++ sep ++ joinWith sep xs

/-! ### Fenced-block scanner

Implements `re.finditer(r'<3 backticks>(\w*)\n(.*?)<3 backticks>', raw, re.DOTALL)`
together with `re.sub` of the same pattern by the empty string: the scan
walks left to right, at each position trying to match three backticks,
a greedy word-character run (the language tag), a newline, then the
lazily-shortest inner text up to the next three backticks.  On a failed
match the scan advances one character (as a regex engine does). -/

/-- If `l` starts with three backticks, return the rest. -/
def takeTicks : List Char → Option (List Char)
  | a :: b :: c :: rest =>
    if a = btick && b = btick && c = btick then some rest else none
  | _ => none

/-- Find the earliest occurrence of three consecutive backticks
(the lazy `(.*?)` followed by the closing fence): returns the text before
it and the text after it. -/
def findClose : List Char → Option (List Char × List Char)
  | [] => none
  | c :: rest =>
    match takeTicks (c :: rest) with
    | some after => some ([], after)
    | none =>
      match findClose rest with
      | some (inner, after) => some (c :: inner, after)
      | none => none

/-- One left-to-right scan collecting every fenced block's inner text and
the text outside the blocks (`fuel` bounds the recursion; the wrapper
passes the input length, which suffices because every step consumes at
least one character). -/
def scanGo (fuel : Nat) (l : List Char) : List (List Char) × List Char :=
  match fuel, l with
  | 0, l => ([], l)
  | _, [] => ([], [])
  | fuel + 1, c :: rest =>
    match takeTicks (c :: rest) with
    | some afterTicks =>
      match afterTicks.dropWhile isWordChar with
      | nl :: body =>
        if nl = '\n' then
          match findClose body with
          | some (inner, after) =>
            let p := scanGo fuel after
            (inner :: p.1, p.2)
          | none =>
            let p := scanGo fuel rest
            (p.1, c :: p.2)
        else
          let p := scanGo fuel rest
          (p.1, c :: p.2)
      | [] =>
        let p := scanGo fuel rest
        (p.1, c :: p.2)
    | none =>
      let p := scanGo fuel rest
      (p.1, c :: p.2)

/-- All fenced blocks of `l` (inner texts, in order) and `l` with the
blocks removed. -/
def scanBlocks (l : List Char) : List (List Char) × List Char :=
  scanGo l.length l

/-! ### Heuristic code detection

Implements `re.search(r'(def\s+\w+|class\s+\w+|function\s+\w+)', raw)`
and the per-line classifiers of the heuristic path. -/

/-- `kw` followed by `\s+\w+` at the head of `l`: the keyword, at least
one whitespace character, then at least one word character. -/
def kwThenWord (kw : List Char) (l : List Char) : Bool :=
  kw.isPrefixOf l &&
    (match l.drop kw.length with
     | [] => false
     | c :: rest =>
       isPySpace c &&
         (match rest.dropWhile isPySpace with
          | [] => false
          | d :: _ => isWordChar d))

/-- `re.search(r'(def\s+\w+|class\s+\w+|function\s+\w+)', l)`:
does any suffix match one of the three alternatives? -/
def hasCodeDecl : List Char → Bool
  | [] => false
  | c :: rest =>
    kwThenWord "def".data (c :: rest) ||
    kwThenWord "class".data (c :: rest) ||
    kwThenWord "function".data (c :: rest) ||
    hasCodeDecl rest

/-- The keyword list of `re.match(r'^\s+(def|class|if|for|while|return|import|from)', line)`. -/
def LINE_KEYWORDS : List (List Char) :=
  ["def".data, "class".data, "if".data, "for".data,
   "while".data, "return".data, "import".data, "from".data]

/-- `re.match(r'^\s+(def|class|if|for|while|return|import|from)', line)`:
a non-empty run of leading whitespace followed immediately by one of the
keywords. -/
def indentedKw (line : List Char) : Bool :=
  match line with
  | [] => false
  | c :: _ =>
    isPySpace c &&
      LINE_KEYWORDS.any (fun kw => kw.isPrefixOf (line.dropWhile isPySpace))

/-- `re.match(r'^(def|class)\s+', line)`: the line starts with `def` or
`class` followed by at least one whitespace character. -/
def defClassStart (line : List Char) : Bool :=
  ("def".data.isPrefixOf line &&
     (match line.drop 3 with
      | [] => false
      | c :: _ => isPySpace c)) ||
  ("class".data.isPrefixOf line &&
     (match line.drop 5 with
      | [] => false
      | c :: _ => isPySpace c))

/-- Python `raw.split('\n')`. -/
def splitLines : List Char → List (List Char)
  | [] => [[]]
  | c :: rest =>
    if c = '\n' then [] :: splitLines rest
    else
      match splitLines rest with
      | l :: ls => (c :: l) :: ls
      | [] => [[c]]

/-- The heuristic line loop of `validate_ai_response` (main.py 87-101):
threads the `in_code` flag through the lines, returning
`(code_lines, explanation_lines)`.  The branch appending a blank line to
the code while `in_code` holds is mirrored from the source even though it
is unreachable (the `else` is only entered when `in_code` is false). -/
def lineLoop (inCode : Bool) : List (List Char) → List (List Char) × List (List Char)
  | [] => ([], [])
  | line :: rest =>
    if indentedKw line || inCode then
      let p := lineLoop true rest
      (line :: p.1, p.2)
    else if defClassStart line then
      let p := lineLoop true rest
      (line :: p.1, p.2)
    else if inCode && (stripChars line).isEmpty then
      let p := lineLoop inCode rest
      (line :: p.1, p.2)
    else
      let p := lineLoop false rest
      (p.1, line :: p.2)

/-! ### The normalizer -/

/-- The pydantic schema `AIResponse` (main.py 35-37); also the shape of
the dict returned by `validate_ai_response`. -/
structure AIResponse where
  explanation : String
  python_code : String
deriving DecidableEq

/-- The body of `validate_ai_response` after the empty-input guard:
returns `(final_explanation, final_code)` before the lead-in
substitution.  Mirrors main.py 61-111: collect fenced blocks (each
stripped), strip the text with the blocks removed; if no fenced block was
found and the declaration regex fires, run the line heuristic on the raw
text and, when it yields code lines, replace both parts. -/
def extractParts (raw : List Char) : List Char × List Char :=
  let scanned := scanBlocks raw
  let fenced := scanned.1.map stripChars
  let removedStripped := stripChars scanned.2
  let parts :=
    if fenced.isEmpty && hasCodeDecl raw then
      let split := lineLoop false (splitLines raw)
      if split.1.isEmpty then (fenced, removedStripped)
      else ([joinWith ['\n'] split.1], stripChars (joinWith ['\n'] split.2))
    else (fenced, removedStripped)
  (stripChars parts.2, joinWith ('\n' :: '\n' :: []) parts.1)

/-- `validate_ai_response` (main.py 50-120): the guard for empty or
whitespace-only input, then the extraction, then the lead-in
substitution `if not final_explanation and final_code`. -/
def validate_ai_response (raw_content : String) : AIResponse :=
  if (stripChars raw_content.data).isEmpty then
    { explanation := "No response received.", python_code := "" }
  else
    { explanation :=
        ⟨if (extractParts raw_content.data).1.isEmpty &&
            !(extractParts raw_content.data).2.isEmpty
          then "Here's the solution:".data
          else (extractParts raw_content.data).1⟩,
      python_code := ⟨(extractParts raw_content.data).2⟩ }

/-! ### Basic lemmas about the string helpers -/

lemma string_mk_eq_empty_iff (l : List Char) : (⟨l⟩ : String) = "" ↔ l = [] := by
  constructor
  · intro h
    exact congrArg String.data h
  · intro h
    rw [h]

lemma stripChars_eq_rdrop (l : List Char) :
    stripChars l = List.rdropWhile isPySpace (l.dropWhile isPySpace) := rfl

lemma dropWhile_rdropWhile_self (p : Char → Bool) (m : List Char)
    (hm : List.dropWhile p m = m) :
    List.dropWhile p (List.rdropWhile p m) = List.rdropWhile p m := by
  obtain ⟨t, ht⟩ := List.rdropWhile_prefix p m
  cases h : List.rdropWhile p m with
  | nil => rfl
  | cons a x =>
    have hma : m = a :: (x ++ t) := by
      rw [← ht, h, List.cons_append]
    have ha : ¬ p a := by
      intro hpa
      rw [hma, List.dropWhile_cons_of_pos hpa] at hm
      have hlen := congrArg List.length hm
      rw [List.length_cons] at hlen
      have hle : (List.dropWhile p (x ++ t)).length ≤ (x ++ t).length :=
        (List.dropWhile_suffix p).length_le
      omega
    rw [List.dropWhile_cons_of_neg ha]

lemma stripChars_idem (l : List Char) : stripChars (stripChars l) = stripChars l := by
  rw [stripChars_eq_rdrop l, stripChars_eq_rdrop,
    dropWhile_rdropWhile_self isPySpace (l.dropWhile isPySpace)
      (List.dropWhile_idempotent isPySpace l),
    List.rdropWhile_idempotent]

lemma stripChars_eq_nil_iff {l : List Char} :
    stripChars l = [] ↔ ∀ c ∈ l, isPySpace c = true := by
  rw [stripChars_eq_rdrop, List.rdropWhile_eq_nil_iff]
  constructor
  · intro h c hc
    have h2 : List.dropWhile isPySpace (List.dropWhile isPySpace l) = [] :=
      List.dropWhile_eq_nil_iff.mpr h
    rw [List.dropWhile_idempotent] at h2
    exact List.dropWhile_eq_nil_iff.mp h2 c hc
  · intro h c hc
    exact h c ((List.dropWhile_suffix isPySpace).sublist.subset hc)

lemma stripChars_ne_nil_of_mem {l : List Char} {c : Char}
    (hc : c ∈ l) (hns : isPySpace c = false) : stripChars l ≠ [] := by
  intro h
  have := stripChars_eq_nil_iff.mp h c hc
  rw [hns] at this
  cases this

/-- Shared fact: whenever the normalizer recovers non-empty code, its
explanation is non-empty as well (main.py 113-115 substitutes the fixed
lead-in exactly when the explanation would otherwise be empty). -/
lemma validate_expl_ne_empty_of_code (s : String)
    (h : (validate_ai_response s).python_code ≠ "") :
    (validate_ai_response s).explanation ≠ "" := by
  unfold validate_ai_response at h ⊢
  by_cases hws : (stripChars s.data).isEmpty
  · rw [if_pos hws]
    decide
  · rw [if_neg hws] at h ⊢
    simp only [ne_eq, string_mk_eq_empty_iff] at h
    have h2 : (!(extractParts s.data).2.isEmpty) = true := by
      simpa [List.isEmpty_iff] using h
    cases hp1 : (extractParts s.data).1 with
    | nil =>
      simp only [List.isEmpty_nil, Bool.true_and, h2, if_true]
      decide
    | cons a l =>
      simp only [List.isEmpty_cons, Bool.false_and, Bool.false_eq_true, if_false]
      simp [string_mk_eq_empty_iff]

/-! ### Behaviour of the fenced-block scanner on structured input -/

lemma takeTicks_cons_of_ne {c : Char} (h : c ≠ btick) (rest : List Char) :
    takeTicks (c :: rest) = none := by
  cases rest with
  | nil => rfl
  | cons b r =>
    cases r with
    | nil => rfl
    | cons d r' => simp [takeTicks, h]

lemma takeTicks_ticks (rest : List Char) :
    takeTicks (btick :: btick :: btick :: rest) = some rest := by
  simp [takeTicks]

lemma findClose_spec (body post : List Char) (h : ∀ c ∈ body, c ≠ btick) :
    findClose (body ++ btick :: btick :: btick :: post) = some (body, post) := by
  induction body with
  | nil =>
    simp [findClose, takeTicks_ticks]
  | cons c body ih =>
    have hc : c ≠ btick := h c (by simp)
    rw [List.cons_append]
    simp [findClose, takeTicks_cons_of_ne hc,
      ih (fun x hx => h x (by simp [hx]))]

lemma scanGo_no_tick (l : List Char) (h : ∀ c ∈ l, c ≠ btick) (fuel : Nat) :
    scanGo fuel l = ([], l) := by
  induction l generalizing fuel with
  | nil => cases fuel <;> rfl
  | cons c rest ih =>
    cases fuel with
    | zero => rfl
    | succ f =>
      have hc : c ≠ btick := h c (by simp)
      simp [scanGo, takeTicks_cons_of_ne hc,
        ih (fun x hx => h x (by simp [hx])) f]

lemma dropWhile_append_cons (p : Char → Bool) (xs : List Char) (y : Char)
    (ys : List Char) (hxs : ∀ x ∈ xs, p x = true) (hy : p y = false) :
    List.dropWhile p (xs ++ y :: ys) = y :: ys := by
  induction xs with
  | nil =>
    have hy' : ¬ p y = true := by simp [hy]
    rw [List.nil_append, List.dropWhile_cons_of_neg hy']
  | cons a xs ih =>
    have ha : p a = true := hxs a (by simp)
    rw [List.cons_append, List.dropWhile_cons_of_pos (by simp [ha]),
      ih (fun x hx => hxs x (by simp [hx]))]

/-- A single well-formed fenced block: the scan removes it, returns its
inner text, and leaves the surrounding text unchanged (provided the
surrounding text and the block body contain no backtick and the language
tag is made of word characters). -/
lemma scanGo_single (lang body post : List Char)
    (hlang : ∀ c ∈ lang, isWordChar c = true)
    (hbody : ∀ c ∈ body, c ≠ btick)
    (hpost : ∀ c ∈ post, c ≠ btick) :
    ∀ (pre : List Char) (fuel : Nat), (∀ c ∈ pre, c ≠ btick) →
      pre.length + 1 ≤ fuel →
      scanGo fuel
        (pre ++ btick :: btick :: btick ::
          (lang ++ '\n' :: (body ++ btick :: btick :: btick :: post)))
        = ([body], pre ++ post) := by
  intro pre
  induction pre with
  | nil =>
    intro fuel _ hfuel
    obtain ⟨f, rfl⟩ : ∃ f, fuel = f + 1 := ⟨fuel - 1, by omega⟩
    rw [List.nil_append]
    simp only [scanGo, takeTicks_ticks,
      dropWhile_append_cons isWordChar lang '\n' _ hlang (by decide),
      if_pos rfl, findClose_spec body post hbody, scanGo_no_tick post hpost f]
    simp
  | cons c pre ih =>
    intro fuel hpre hfuel
    obtain ⟨f, rfl⟩ : ∃ f, fuel = f + 1 := ⟨fuel - 1, by omega⟩
    have hc : c ≠ btick := hpre c (by simp)
    rw [List.cons_append]
    simp only [scanGo, takeTicks_cons_of_ne hc,
      ih f (fun x hx => hpre x (by simp [hx]))
        (by simpa using Nat.lt_of_succ_le hfuel)]
    simp

lemma scanBlocks_single (pre lang body post : List Char)
    (hpre : ∀ c ∈ pre, c ≠ btick)
    (hlang : ∀ c ∈ lang, isWordChar c = true)
    (hbody : ∀ c ∈ body, c ≠ btick)
    (hpost : ∀ c ∈ post, c ≠ btick) :
    scanBlocks
      (pre ++ btick :: btick :: btick ::
        (lang ++ '\n' :: (body ++ btick :: btick :: btick :: post)))
      = ([body], pre ++ post) := by
  apply scanGo_single lang body post hlang hbody hpost pre _ hpre
  simp only [List.length_append, List.length_cons]
  omega

lemma isEmpty_false_of_ne_nil {l : List Char} (h : l ≠ []) :
    l.isEmpty = false := by
  cases l with
  | nil => exact absurd rfl h
  | cons a x => rfl

lemma extractParts_single_block (pre lang body post : List Char)
    (hpre : ∀ c ∈ pre, c ≠ btick)
    (hlang : ∀ c ∈ lang, isWordChar c = true)
    (hbody : ∀ c ∈ body, c ≠ btick)
    (hpost : ∀ c ∈ post, c ≠ btick) :
    extractParts
      (pre ++ btick :: btick :: btick ::
        (lang ++ '\n' :: (body ++ btick :: btick :: btick :: post)))
      = (stripChars (pre ++ post), stripChars body) := by
  have hscan := scanBlocks_single pre lang body post hpre hlang hbody hpost
  simp only [extractParts, hscan, List.map_cons, List.map_nil,
    List.isEmpty_cons, Bool.false_and, Bool.false_eq_true, if_false,
    stripChars_idem]
  rfl

/-! ### Claims C6-C9: the response normalizer -/

/-- C6, counterexample: `validate_ai_response` has no strict
JSON-object parse.  On the claim's round-trip input
(a valid JSON object, so the code field's newline is the two-character
escape `backslash n`) the result is NOT
`explanation = "Sorts list"`, `python_code = "def f(x): ..."`. -/
theorem c6_strict_parse_counterexample :
    (validate_ai_response
        "\x7b\"explanation\":\"Sorts list\",\"python_code\":\"def f(x):\\n  return sorted(x)\"\x7d").explanation
      ≠ "Sorts list" ∧
    (validate_ai_response
        "\x7b\"explanation\":\"Sorts list\",\"python_code\":\"def f(x):\\n  return sorted(x)\"\x7d").python_code
      ≠ "def f(x):\n  return sorted(x)" := by
  constructor <;> decide

/-- C6, amended: the normalizer never parses the raw text as JSON.  A raw
text that is exactly a JSON object with string fields `explanation` and
`python_code` is processed as plain text; on the claim's input the
declaration regex fires but the line heuristic classifies the single
line as explanation, so the whole raw text becomes the explanation and
the code is empty. -/
theorem c6_json_object_as_plain_text :
    validate_ai_response
        "\x7b\"explanation\":\"Sorts list\",\"python_code\":\"def f(x):\\n  return sorted(x)\"\x7d"
      = { explanation :=
            "\x7b\"explanation\":\"Sorts list\",\"python_code\":\"def f(x):\\n  return sorted(x)\"\x7d",
          python_code := "" } := by
  decide

/-- C7, counterexample: when the raw text contains more than one fenced
block, the code field is the blank-line join of ALL blocks' stripped
inner contents, not the first block's content alone. -/
theorem c7_first_block_counterexample :
    (validate_ai_response "A\n```\nx\n```\nB\n```\ny\n```\nC").python_code = "x\n\ny" ∧
    (validate_ai_response "A\n```\nx\n```\nB\n```\ny\n```\nC").python_code ≠ "x" := by
  constructor <;> decide

/-- C7, amended: for a raw text containing a single well-formed fenced
block (no backtick in the surrounding text or the block body, word
characters as language tag) whose surrounding text does not trim to
nothing, the block's stripped inner content becomes `code` and the
explanation is the raw text with the block removed, trimmed (no blank
line is inserted; in the claim's example the blank line comes from the
newlines already surrounding the block).  With several blocks all are
extracted and joined (see the counterexample). -/
theorem c7_fenced_extraction (pre lang body post : List Char)
    (hpre : ∀ c ∈ pre, c ≠ btick)
    (hlang : ∀ c ∈ lang, isWordChar c = true)
    (hbody : ∀ c ∈ body, c ≠ btick)
    (hpost : ∀ c ∈ post, c ≠ btick)
    (hsurround : stripChars (pre ++ post) ≠ []) :
    validate_ai_response
        ⟨pre ++ btick :: btick :: btick ::
          (lang ++ '\n' :: (body ++ btick :: btick :: btick :: post))⟩
      = { explanation := ⟨stripChars (pre ++ post)⟩,
          python_code := ⟨stripChars body⟩ } := by
  have hep := extractParts_single_block pre lang body post hpre hlang hbody hpost
  have hmem : btick ∈
      pre ++ btick :: btick :: btick ::
        (lang ++ '\n' :: (body ++ btick :: btick :: btick :: post)) := by
    simp
  have hws := stripChars_ne_nil_of_mem hmem (by decide)
  unfold validate_ai_response
  rw [if_neg (by simp [List.isEmpty_iff, hws])]
  have hdata : (⟨pre ++ btick :: btick :: btick ::
      (lang ++ '\n' :: (body ++ btick :: btick :: btick :: post))⟩ : String).data
      = pre ++ btick :: btick :: btick ::
        (lang ++ '\n' :: (body ++ btick :: btick :: btick :: post)) := rfl
  rw [hdata, hep]
  simp only [isEmpty_false_of_ne_nil hsurround, Bool.false_and,
    Bool.false_eq_true, if_false]

/-- C7, witness: the claim's own example, obtained from
`c7_fenced_extraction` at `pre = "Use this:\n"`, `lang = "python"`,
`body = "print(1)\n"`, `post = "\nDone."`. -/
theorem c7_fenced_extraction_witness :
    validate_ai_response "Use this:\n```python\nprint(1)\n```\nDone."
      = { explanation := "Use this:\n\nDone.", python_code := "print(1)" } := by
  have h := c7_fenced_extraction "Use this:\n".data "python".data
    "print(1)\n".data "\nDone.".data
    (by decide) (by decide) (by decide) (by decide) (by decide)
  exact h.trans (by decide)

/-- C8: whenever the normalizer recovers code (`python_code ≠ ""`) and
the extracted explanation text is empty, the returned explanation is the
fixed lead-in `"Here's the solution:"`; and whenever code is recovered
the explanation is non-empty. -/
theorem c8_leadin_substitution (s : String)
    (h : (validate_ai_response s).python_code ≠ "") :
    ((extractParts s.data).1 = [] →
      (validate_ai_response s).explanation = "Here's the solution:")
    ∧ (validate_ai_response s).explanation ≠ "" := by
  refine ⟨fun h1 => ?_, validate_expl_ne_empty_of_code s h⟩
  unfold validate_ai_response at h ⊢
  by_cases hws : (stripChars s.data).isEmpty
  · rw [if_pos hws] at h
    exact absurd rfl h
  · rw [if_neg hws] at h ⊢
    simp only [ne_eq, string_mk_eq_empty_iff] at h
    have h2 : (!(extractParts s.data).2.isEmpty) = true := by
      simpa [List.isEmpty_iff] using h
    rw [h1]
    simp only [List.isEmpty_nil, Bool.true_and, h2, if_true]

/-- C8, witness: a lone fenced block leaves no explanation text, so the
lead-in is substituted and both fields are populated. -/
theorem c8_leadin_substitution_witness :
    (validate_ai_response "```python\nprint(1)\n```").explanation
        = "Here's the solution:" ∧
    (validate_ai_response "```python\nprint(1)\n```").explanation ≠ "" :=
  ⟨(c8_leadin_substitution "```python\nprint(1)\n```" (by decide)).1 (by decide),
   (c8_leadin_substitution "```python\nprint(1)\n```" (by decide)).2⟩

/-- C9, counterexample: the input consisting of a single empty fenced
block is non-empty (and not whitespace-only) yet yields an EMPTY
explanation: the fenced path produces one empty code block, so
`final_code` is empty and the lead-in substitution does not fire. -/
theorem c9_empty_explanation_counterexample :
    ("```\n```" : String) ≠ "" ∧
    (validate_ai_response "```\n```").explanation = "" ∧
    (validate_ai_response "```\n```").python_code = "" := by
  refine ⟨by decide, by decide, by decide⟩

/-- C9, amended: `validate_ai_response` is total (it is a Lean function
into `AIResponse`, whose two fields are strings); empty or
whitespace-only input yields the fixed explanation
`"No response received."` with empty code; and the explanation is
non-empty whenever the recovered code is non-empty.  (A non-empty input
can still yield an empty explanation when its only content is empty
fenced blocks — see the counterexample.) -/
theorem c9_normalizer_totality :
    (∀ s : String, stripChars s.data = [] →
      validate_ai_response s
        = { explanation := "No response received.", python_code := "" })
    ∧ (∀ s : String, (validate_ai_response s).python_code ≠ "" →
        (validate_ai_response s).explanation ≠ "") := by
  constructor
  · intro s h
    unfold validate_ai_response
    rw [if_pos (by simp [h])]
  · exact validate_expl_ne_empty_of_code

/-- C9, witness: the whitespace branch on a concrete whitespace-only
input, and the non-empty-explanation guarantee on a concrete input with
code. -/
theorem c9_normalizer_totality_witness :
    validate_ai_response "  \n "
        = { explanation := "No response received.", python_code := "" } ∧
    (validate_ai_response "a\n```\nb\n```").explanation ≠ "" :=
  ⟨c9_normalizer_totality.1 "  \n " (by decide),
   c9_normalizer_totality.2 "a\n```\nb\n```" (by decide)⟩

/-! ### Completion Client: `AIClient.create_chat_completion`
(engine.py 246-335)

The HTTP transport is abstracted as an oracle `Nat → AttemptResult`
giving the outcome of the `requests.post` + `raise_for_status` + body
parse of each attempt (attempts are numbered from 1, as in the source's
`range(1, MAX_RETRIES + 1)`).  `response.raise_for_status()` turns a
non-2xx response into an `HTTPError` carrying the status code; a 2xx
response yields the parsed message content. -/

/-- Outcome of one attempt of `requests.post` + `raise_for_status` +
body extraction. -/
inductive AttemptResult where
  | success (body : String)
  | httpError (status : Nat)
  | timeout
  | connError
deriving DecidableEq

/-- How `create_chat_completion` can raise: re-raising the caught
`requests.exceptions.Timeout` on the last attempt, or
`raise Exception(msg)` with a message string. -/
inductive CompletionError where
  | timeoutRaised
  | failure (msg : String)
deriving DecidableEq

/-- `AIClient.MAX_RETRIES` (engine.py 249). -/
def MAX_RETRIES : Nat := 2

/-- `AIClient.RETRY_STATUS_CODES` (engine.py 250). -/
def RETRY_STATUS_CODES : List Nat := [429, 500, 502, 503, 504]

/-- `AIClient._http_error_message` (engine.py 328-335). -/
def http_error_message (status_code : Nat) : String :=
  if status_code = 401 then "Invalid API key"
  else if status_code = 429 then "Rate limit exceeded"
  else if status_code = 400 then "Bad request"
  else "HTTP " ++ toString status_code ++ " error"

/-- The retry loop of `create_chat_completion` (engine.py 291-326),
returning the result together with the number of the attempt on which
the loop left (= total attempts made).  `fuel` counts the remaining loop
iterations; the wrapper passes `MAX_RETRIES`, and every exit path at
`attempt = maxRetries` returns, so the fuel-exhausted arm is never
reached from the wrapper. -/
def createGo (outcomes : Nat → AttemptResult) (maxRetries : Nat) :
    Nat → Nat → Except CompletionError String × Nat
  | 0, attempt => (.error .timeoutRaised, attempt)
  | fuel + 1, attempt =>
    match outcomes attempt with
    | .success body => (.ok body, attempt)
    | .timeout =>
      if attempt = maxRetries then (.error .timeoutRaised, attempt)
      else createGo outcomes maxRetries fuel (attempt + 1)
    | .httpError status =>
      if status ∈ RETRY_STATUS_CODES ∧ attempt < maxRetries then
        createGo outcomes maxRetries fuel (attempt + 1)
      else (.error (.failure (http_error_message status)), attempt)
    | .connError => (.error (.failure "Failed to connect to AI service"), attempt)

/-- `AIClient.create_chat_completion` (engine.py 280-326). -/
def create_chat_completion (outcomes : Nat → AttemptResult) :
    Except CompletionError String × Nat :=
  createGo outcomes MAX_RETRIES MAX_RETRIES 1

/-! ### `AIEngine.process` (engine.py 348-392)

`QuestionAnalyzer` and `PromptBuilder` only shape the messages sent to
the provider; they never change which branch `process` takes or what it
returns, so the transport plus prompt are abstracted into the same
attempt oracle.  The `except` at engine.py 386-388 catches every
exception `create_chat_completion` raises and returns
`_format_error(str(e))` — `process` itself never raises.
`str(e)` of the re-raised `requests` timeout exception is
environment-dependent, so it is a parameter `timeoutText`. -/

/-- `AIEngine._format_error` (engine.py 390-392). -/
def format_error (message : String) : String :=
  "⚠️ Error: " ++ message ++ "\n\nPlease check your configuration and try again."

/-- Python `str(e)` for the exceptions `create_chat_completion` raises. -/
def exceptionText (timeoutText : String) : CompletionError → String
  | .timeoutRaised => timeoutText
  | .failure msg => msg

/-- `AIEngine.process` (engine.py 348-392): the short-text guard, then
the completion call; exceptions become `_format_error` text.  Returns
the text together with the number of completion-client attempts made. -/
def process (screen_text : String) (outcomes : Nat → AttemptResult)
    (timeoutText : String) : String × Nat :=
  if (stripChars screen_text.data).length < 5 then
    ("⚠️ Error: No text detected in screenshot.", 0)
  else
    match create_chat_completion outcomes with
    | (.ok content, n) => (content, n)
    | (.error e, n) => (format_error (exceptionText timeoutText e), n)

/-! ### Command Dispatcher (`websocket_endpoint`, main.py 156-314)

The module-level mutable state (main.py 42-44) becomes `ServerState`;
each loop iteration of the endpoint becomes `step`, which returns the
reply sent (if any), the new state, the number of calls to
`ai_engine.process` made while handling the command (an upper bound on
completion-client calls: the cached and error paths make none), and
whether the loop breaks (`stop`).  Wall-clock `time.time()` is the
`now : Nat` parameter (whole seconds). -/

/-- `last_screenshot_data` (main.py 188-192). -/
structure Snapshot where
  screen_text : String
  audio_text : String
  timestamp : Nat
deriving DecidableEq

/-- `last_response_cache` (main.py 200-204). -/
structure CacheEntry where
  screen_text : String
  audio_text : String
  ai_response : AIResponse
deriving DecidableEq

/-- The module-level state `(last_response_cache, last_capture_time,
last_screenshot_data)` (main.py 42-44). -/
structure ServerState where
  last_response_cache : Option CacheEntry
  last_capture_time : Nat
  last_screenshot_data : Option Snapshot
deriving DecidableEq

/-- `CACHE_DURATION` (main.py 45). -/
def CACHE_DURATION : Nat := 10

/-- The initial module state (main.py 42-44). -/
def initState : ServerState :=
  { last_response_cache := none, last_capture_time := 0,
    last_screenshot_data := none }

/-- A reply sent over the websocket (main.py: the `send_json` payloads). -/
inductive Reply where
  | response (data : CacheEntry)
  | error (message details : String)
  | cleared
deriving DecidableEq

/-- The commands of the protocol.  `capture` carries the screen and
audio text the collaborators produce during that command (main.py
181-183); the model covers the success path of capture. -/
inductive Command where
  | capture (screen_text audio_text : String)
  | solve
  | clear
  | stop
deriving DecidableEq

/-- The AI engine as seen by the dispatcher:
`(screen_text, audio_text) ↦ (raw text, completion-client calls)`. -/
def AIOracle : Type := String → String → String × Nat

/-- Result of processing one received command. -/
structure StepOut where
  reply : Option Reply
  state : ServerState
  clientCalls : Nat
  closed : Bool
deriving DecidableEq

/-- One iteration of the dispatcher loop (main.py 178-297). -/
def step (ai : AIOracle) (now : Nat) (st : ServerState) : Command → StepOut
  | .capture screen audio =>
    let r := ai screen audio
    let resp := validate_ai_response r.1
    let entry : CacheEntry :=
      { screen_text := screen, audio_text := audio, ai_response := resp }
    { reply := some (.response entry),
      state := { last_response_cache := some entry, last_capture_time := now,
                 last_screenshot_data :=
                   some { screen_text := screen, audio_text := audio,
                          timestamp := now } },
      clientCalls := r.2, closed := false }
  | .solve =>
    match st.last_screenshot_data with
    | none =>
      { reply := some (.error "Take a screenshot first"
          "Press Ctrl+Shift+C to capture before solving"),
        state := st, clientCalls := 0, closed := false }
    | some snap =>
      if now - snap.timestamp > 300 then
        { reply := some (.error "Screenshot expired"
            "Take a new screenshot (Ctrl+Shift+C)"),
          state := st, clientCalls := 0, closed := false }
      else
        match st.last_response_cache with
        | some entry =>
          if now - st.last_capture_time < CACHE_DURATION then
            { reply := some (.response entry), state := st,
              clientCalls := 0, closed := false }
          else
            let r := ai snap.screen_text snap.audio_text
            let resp := validate_ai_response r.1
            let fresh : CacheEntry :=
              { screen_text := snap.screen_text, audio_text := snap.audio_text,
                ai_response := resp }
            { reply := some (.response fresh),
              state := { last_response_cache := some fresh,
                         last_capture_time := now,
                         last_screenshot_data := st.last_screenshot_data },
              clientCalls := r.2, closed := false }
        | none =>
          let r := ai snap.screen_text snap.audio_text
          let resp := validate_ai_response r.1
          let fresh : CacheEntry :=
            { screen_text := snap.screen_text, audio_text := snap.audio_text,
              ai_response := resp }
          { reply := some (.response fresh),
            state := { last_response_cache := some fresh,
                       last_capture_time := now,
                       last_screenshot_data := st.last_screenshot_data },
            clientCalls := r.2, closed := false }
  | .clear =>
    { reply := some .cleared, state := initState, clientCalls := 0,
      closed := false }
  | .stop =>
    { reply := none, state := st, clientCalls := 0, closed := true }

/-- Result of processing a trace of commands. -/
structure RunOut where
  replies : List (Option Reply)
  state : ServerState
  clientCalls : Nat
deriving DecidableEq

/-- The dispatcher loop over a trace of timed commands; `stop` breaks
the loop (main.py 295-297), dropping the rest of the trace. -/
def run (ai : AIOracle) : ServerState → List (Nat × Command) → RunOut
  | st, [] => { replies := [], state := st, clientCalls := 0 }
  | st, (t, c) :: rest =>
    let o := step ai t st c
    if o.closed then
      { replies := [o.reply], state := o.state, clientCalls := o.clientCalls }
    else
      let r := run ai o.state rest
      { replies := o.reply :: r.replies, state := r.state,
        clientCalls := o.clientCalls + r.clientCalls }

/-- The dispatcher's engine oracle induced by `AIEngine.process` with a
fixed attempt oracle (`audio_text` does not influence `process`'s
control flow). -/
def processOracle (outcomes : Nat → AttemptResult) (timeoutText : String) :
    AIOracle :=
  fun screen _ => process screen outcomes timeoutText

/-! ### Claims C1-C3: solve-path cache and snapshot rules -/

/-- Does a command carry a capture? -/
def isCapture : Command → Bool
  | .capture _ _ => true
  | _ => false

/-- C2: a `solve` while the snapshot is older than 300 s is answered
with the snapshot-expired error and no engine call, whatever the cache
holds (main.py 233-243: the staleness check precedes the cache check). -/
theorem c2_stale_snapshot_rejected (ai : AIOracle) (now : Nat)
    (st : ServerState) (snap : Snapshot)
    (hsnap : st.last_screenshot_data = some snap)
    (hstale : now - snap.timestamp > 300) :
    step ai now st .solve =
      { reply := some (.error "Screenshot expired"
          "Take a new screenshot (Ctrl+Shift+C)"),
        state := st, clientCalls := 0, closed := false } := by
  simp only [step, hsnap]
  rw [if_pos hstale]

/-- C2, witness: the stale-snapshot error wins even while a cached
answer generated 5 s ago exists (snapshot age 305 s, cache age 5 s). -/
theorem c2_stale_snapshot_rejected_witness :
    step (fun _ _ => ("ok", 1)) 305
        { last_response_cache := some
            { screen_text := "sc", audio_text := "au",
              ai_response := { explanation := "e", python_code := "c" } },
          last_capture_time := 300,
          last_screenshot_data := some
            { screen_text := "sc", audio_text := "au", timestamp := 0 } }
        .solve
      = { reply := some (.error "Screenshot expired"
            "Take a new screenshot (Ctrl+Shift+C)"),
          state :=
            { last_response_cache := some
                { screen_text := "sc", audio_text := "au",
                  ai_response := { explanation := "e", python_code := "c" } },
              last_capture_time := 300,
              last_screenshot_data := some
                { screen_text := "sc", audio_text := "au", timestamp := 0 } },
          clientCalls := 0, closed := false } :=
  c2_stale_snapshot_rejected _ 305 _ _ rfl (by decide)

/-- C1, counterexample: two reachable states satisfying the claim's
premise (CacheEntry exists, `now - generated_at ≤ 10`) where the
dispatcher does NOT return the cached answer: (i) the snapshot is stale
(age 305 s), so the expired error is sent although the cache is 6 s old;
(ii) the cache is exactly 10 s old, which fails the strict
`time_since_capture < CACHE_DURATION` test, so a fresh engine call
(count 1) is made. -/
theorem c1_cached_reply_counterexample :
    (step (fun _ _ => ("ok", 1)) 305
        { last_response_cache := some
            { screen_text := "sc", audio_text := "au",
              ai_response := { explanation := "e", python_code := "c" } },
          last_capture_time := 299,
          last_screenshot_data := some
            { screen_text := "sc", audio_text := "au", timestamp := 0 } }
        .solve).reply
      = some (.error "Screenshot expired" "Take a new screenshot (Ctrl+Shift+C)") ∧
    (step (fun _ _ => ("ok", 1)) 20
        { last_response_cache := some
            { screen_text := "sc", audio_text := "au",
              ai_response := { explanation := "e", python_code := "c" } },
          last_capture_time := 10,
          last_screenshot_data := some
            { screen_text := "sc", audio_text := "au", timestamp := 10 } }
        .solve).clientCalls = 1 := by
  constructor <;> decide

/-- C1, amended: when a snapshot exists and is at most 300 s old, a
CacheEntry exists, and `now - generated_at` is STRICTLY below the 10 s
window, `solve` replies with the cached entry itself (all fields equal)
and makes no engine (hence no completion-client) call. -/
theorem c1_cached_reply (ai : AIOracle) (now : Nat) (st : ServerState)
    (snap : Snapshot) (entry : CacheEntry)
    (hsnap : st.last_screenshot_data = some snap)
    (hfreshSnap : ¬ now - snap.timestamp > 300)
    (hcache : st.last_response_cache = some entry)
    (hfreshCache : now - st.last_capture_time < CACHE_DURATION) :
    step ai now st .solve =
      { reply := some (.response entry), state := st,
        clientCalls := 0, closed := false } := by
  simp only [step, hsnap, hcache]
  rw [if_neg hfreshSnap, if_pos hfreshCache]

/-- C1, witness: snapshot age 10 s, cache age 7 s: the cached entry is
returned unchanged with zero engine calls. -/
theorem c1_cached_reply_witness :
    step (fun _ _ => ("ok", 1)) 15
        { last_response_cache := some
            { screen_text := "sc", audio_text := "au",
              ai_response := { explanation := "e", python_code := "c" } },
          last_capture_time := 8,
          last_screenshot_data := some
            { screen_text := "sc", audio_text := "au", timestamp := 5 } }
        .solve
      = { reply := some (.response
            { screen_text := "sc", audio_text := "au",
              ai_response := { explanation := "e", python_code := "c" } }),
          state :=
            { last_response_cache := some
                { screen_text := "sc", audio_text := "au",
                  ai_response := { explanation := "e", python_code := "c" } },
              last_capture_time := 8,
              last_screenshot_data := some
                { screen_text := "sc", audio_text := "au", timestamp := 5 } },
          clientCalls := 0, closed := false } :=
  c1_cached_reply _ 15 _ _ _ rfl (by decide) rfl (by decide)

/-- C3: a `solve` with no snapshot is answered with the no-snapshot
error, unchanged state and no engine call; along any capture-free trace
started with no snapshot the dispatcher makes zero engine calls, never
gains a snapshot (no silent auto-capture) and never sends a response
envelope; and `clear` resets the state to the initial one (whose
snapshot is absent), so the same holds after a `clear`. -/
theorem c3_no_snapshot_rejected :
    (∀ (ai : AIOracle) (now : Nat) (st : ServerState),
      st.last_screenshot_data = none →
      step ai now st .solve =
        { reply := some (.error "Take a screenshot first"
            "Press Ctrl+Shift+C to capture before solving"),
          state := st, clientCalls := 0, closed := false })
    ∧ (∀ (ai : AIOracle) (st : ServerState) (trace : List (Nat × Command)),
        st.last_screenshot_data = none →
        (∀ p ∈ trace, isCapture p.2 = false) →
        (run ai st trace).clientCalls = 0 ∧
        (run ai st trace).state.last_screenshot_data = none ∧
        ∀ r ∈ (run ai st trace).replies, ∀ d, r ≠ some (Reply.response d))
    ∧ (∀ (ai : AIOracle) (now : Nat) (st : ServerState),
        step ai now st .clear =
          { reply := some .cleared, state := initState,
            clientCalls := 0, closed := false }
        ∧ initState.last_screenshot_data = none) := by
  have hsolve : ∀ (ai : AIOracle) (now : Nat) (st : ServerState),
      st.last_screenshot_data = none →
      step ai now st .solve =
        { reply := some (.error "Take a screenshot first"
            "Press Ctrl+Shift+C to capture before solving"),
          state := st, clientCalls := 0, closed := false } := by
    intro ai now st hsnap
    simp only [step, hsnap]
  refine ⟨hsolve, ?_, fun ai now st => ⟨rfl, rfl⟩⟩
  intro ai st trace
  induction trace generalizing st with
  | nil =>
    intro hsnap _
    exact ⟨rfl, hsnap, by intro r hr; cases hr⟩
  | cons p rest ih =>
    intro hsnap hnocap
    obtain ⟨t, c⟩ := p
    have hrest : ∀ q ∈ rest, isCapture q.2 = false :=
      fun q hq => hnocap q (by simp [hq])
    cases c with
    | capture s a =>
      exact absurd (hnocap (t, .capture s a) (by simp)) (by simp [isCapture])
    | solve =>
      have hstep := hsolve ai t st hsnap
      have hres := ih st hsnap hrest
      have hrun : run ai st ((t, Command.solve) :: rest)
          = { replies := some (Reply.error "Take a screenshot first"
                "Press Ctrl+Shift+C to capture before solving")
                :: (run ai st rest).replies,
              state := (run ai st rest).state,
              clientCalls := (run ai st rest).clientCalls } := by
        simp [run, hstep]
      rw [hrun]
      refine ⟨hres.1, hres.2.1, ?_⟩
      intro r hr d
      rcases List.mem_cons.mp hr with hr | hr
      · rw [hr]
        intro h
        cases h
      · exact hres.2.2 r hr d
    | clear =>
      have hres := ih initState rfl hrest
      have hrun : run ai st ((t, Command.clear) :: rest)
          = { replies := some Reply.cleared :: (run ai initState rest).replies,
              state := (run ai initState rest).state,
              clientCalls := (run ai initState rest).clientCalls } := by
        simp [run, step]
      rw [hrun]
      refine ⟨hres.1, hres.2.1, ?_⟩
      intro r hr d
      rcases List.mem_cons.mp hr with hr | hr
      · rw [hr]
        intro h
        cases h
      · exact hres.2.2 r hr d
    | stop =>
      have hrun : run ai st ((t, Command.stop) :: rest)
          = { replies := [none], state := st, clientCalls := 0 } := by
        simp [run, step]
      rw [hrun]
      refine ⟨rfl, hsnap, ?_⟩
      intro r hr d
      rcases List.mem_cons.mp hr with hr | hr
      · rw [hr]
        intro h
        cases h
      · cases hr

/-- C3, witness: from the initial state, `solve` is rejected with the
no-snapshot error; the capture-free trace `solve, clear, solve` makes
zero engine calls. -/
theorem c3_no_snapshot_rejected_witness :
    step (fun _ _ => ("ok", 1)) 0 initState .solve
      = { reply := some (.error "Take a screenshot first"
            "Press Ctrl+Shift+C to capture before solving"),
          state := initState, clientCalls := 0, closed := false } ∧
    (run (fun _ _ => ("ok", 1)) initState
      [(0, .solve), (1, .clear), (2, .solve)]).clientCalls = 0 :=
  ⟨c3_no_snapshot_rejected.1 _ 0 initState rfl,
   (c3_no_snapshot_rejected.2.1 _ initState
      [(0, .solve), (1, .clear), (2, .solve)] rfl (by decide)).1⟩

/-! ### Claim C4: the completion client retry policy -/

lemma createGo_attempt2 (outcomes : Nat → AttemptResult) :
    (createGo outcomes 2 1 2).2 = 2 := by
  cases h2 : outcomes 2 with
  | success body => simp [createGo, h2]
  | timeout => simp [createGo, h2]
  | httpError s =>
    simp only [createGo, h2]
    rw [if_neg (by omega)]
  | connError => simp [createGo, h2]

/-- C4: `create_chat_completion` makes at most 2 attempts; a second
attempt happens only after a timeout or a status in
{429, 500, 502, 503, 504} on attempt 1; any other HTTP status and any
connection failure fail with attempt count 1; and 429 on attempt 1
followed by a success on attempt 2 succeeds with attempt 2's body and
count 2. -/
theorem c4_retry_policy (outcomes : Nat → AttemptResult) :
    ((create_chat_completion outcomes).2 ≤ 2)
    ∧ ((create_chat_completion outcomes).2 = 2 →
        outcomes 1 = .timeout ∨
          ∃ s, outcomes 1 = .httpError s ∧ s ∈ RETRY_STATUS_CODES)
    ∧ (∀ s, outcomes 1 = .httpError s → s ∉ RETRY_STATUS_CODES →
        create_chat_completion outcomes
          = (.error (.failure (http_error_message s)), 1))
    ∧ (outcomes 1 = .connError →
        create_chat_completion outcomes
          = (.error (.failure "Failed to connect to AI service"), 1))
    ∧ (∀ body, outcomes 1 = .httpError 429 → outcomes 2 = .success body →
        create_chat_completion outcomes = (.ok body, 2)) := by
  have hunfold : create_chat_completion outcomes = createGo outcomes 2 2 1 := rfl
  cases h1 : outcomes 1 with
  | success body =>
    refine ⟨?_, ?_, ?_, ?_, ?_⟩
    · rw [hunfold]; simp [createGo, h1]
    · rw [hunfold]; simp [createGo, h1]
    · intro s hs; cases hs
    · intro hs; cases hs
    · intro b hs; cases hs
  | timeout =>
    have hnext : create_chat_completion outcomes = createGo outcomes 2 1 2 := by
      rw [hunfold]
      simp only [createGo, h1]
      rw [if_neg (by omega)]
    refine ⟨?_, fun _ => Or.inl rfl, ?_, ?_, ?_⟩
    · rw [hnext]
      exact Nat.le_of_eq (createGo_attempt2 outcomes)
    · intro s hs; cases hs
    · intro hs; cases hs
    · intro b hs; cases hs
  | httpError s =>
    by_cases hs : s ∈ RETRY_STATUS_CODES
    · have hnext : create_chat_completion outcomes = createGo outcomes 2 1 2 := by
        rw [hunfold]
        simp only [createGo, h1]
        rw [if_pos ⟨hs, by omega⟩]
      refine ⟨?_, fun _ => Or.inr ⟨s, rfl, hs⟩, ?_, ?_, ?_⟩
      · rw [hnext]
        exact Nat.le_of_eq (createGo_attempt2 outcomes)
      · intro s' hs' hns
        cases hs'
        exact absurd hs hns
      · intro hc; cases hc
      · intro body h429 h2
        injection h429 with hseq
        subst hseq
        rw [hnext]
        simp [createGo, h2]
    · have hstop : create_chat_completion outcomes
          = (.error (.failure (http_error_message s)), 1) := by
        rw [hunfold]
        simp only [createGo, h1]
        rw [if_neg (by intro h; exact hs h.1)]
      refine ⟨by rw [hstop]; omega, by rw [hstop]; omega, ?_, ?_, ?_⟩
      · intro s' hs' _
        cases hs'
        exact hstop
      · intro hc; cases hc
      · intro body h429 _
        injection h429 with hseq
        subst hseq
        exact absurd (by decide) hs
  | connError =>
    have hstop : create_chat_completion outcomes
        = (.error (.failure "Failed to connect to AI service"), 1) := by
      rw [hunfold]
      simp [createGo, h1]
    refine ⟨by rw [hstop]; omega, by rw [hstop]; omega, ?_, fun _ => hstop, ?_⟩
    · intro s hs; cases hs
    · intro b hs; cases hs

/-- C4, witness: 429 then 200 succeeds with the second body and 2
calls; a 401 fails immediately with 1 call. -/
theorem c4_retry_policy_witness :
    create_chat_completion
        (fun n => if n = 1 then .httpError 429 else .success "done")
      = (.ok "done", 2) ∧
    create_chat_completion (fun _ => .httpError 401)
      = (.error (.failure "Invalid API key"), 1) :=
  ⟨(c4_retry_policy _).2.2.2.2 "done" rfl rfl,
   (c4_retry_policy _).2.2.1 401 rfl (by decide)⟩

/-! ### Claims C5 and C10: engine failure and short-text handling -/

/-- C5, counterexample: when the completion client exhausts its retries
(429 on both attempts), the dispatcher does NOT send an `error`
envelope: `AIEngine.process` catches the exception and returns the
formatted error text, which travels to the client inside a normal
`response` envelope (and the session stays open). -/
theorem c5_error_envelope_counterexample :
    (step (processOracle (fun _ => .httpError 429) "") 0
        { last_response_cache := none, last_capture_time := 0,
          last_screenshot_data := some
            { screen_text := "print the sum", audio_text := "",
              timestamp := 0 } }
        .solve).reply
      = some (.response
          { screen_text := "print the sum", audio_text := "",
            ai_response :=
              { explanation :=
                  "\u26a0\ufe0f Error: Rate limit exceeded\n\nPlease check your configuration and try again.",
                python_code := "" } }) ∧
    (step (processOracle (fun _ => .httpError 429) "") 0
        { last_response_cache := none, last_capture_time := 0,
          last_screenshot_data := some
            { screen_text := "print the sum", audio_text := "",
              timestamp := 0 } }
        .solve).closed = false := by
  constructor <;> decide

/-- C5, amended: when the completion call fails (after its bounded
retries), `AIEngine.process` converts the failure into the
`_format_error` text; the dispatcher's fresh-solve path then replies
with a normal `response` envelope whose answer carries that text, the
session stays open (`closed = false`), and the failure never escapes as
an exception. -/
theorem c5_completion_failure_as_response (outcomes : Nat → AttemptResult)
    (timeoutText : String) (now : Nat) (st : ServerState) (snap : Snapshot)
    (e : CompletionError) (n : Nat)
    (hsnap : st.last_screenshot_data = some snap)
    (hfreshSnap : ¬ now - snap.timestamp > 300)
    (hnc : st.last_response_cache = none ∨
      ¬ now - st.last_capture_time < CACHE_DURATION)
    (hlen : ¬ (stripChars snap.screen_text.data).length < 5)
    (hfail : create_chat_completion outcomes = (.error e, n)) :
    step (processOracle outcomes timeoutText) now st .solve =
      { reply := some (.response
          { screen_text := snap.screen_text, audio_text := snap.audio_text,
            ai_response := validate_ai_response
              (format_error (exceptionText timeoutText e)) }),
        state :=
          { last_response_cache := some
              { screen_text := snap.screen_text,
                audio_text := snap.audio_text,
                ai_response := validate_ai_response
                  (format_error (exceptionText timeoutText e)) },
            last_capture_time := now,
            last_screenshot_data := st.last_screenshot_data },
        clientCalls := n, closed := false } := by
  have hp : processOracle outcomes timeoutText snap.screen_text snap.audio_text
      = (format_error (exceptionText timeoutText e), n) := by
    simp only [processOracle, process]
    rw [if_neg hlen, hfail]
  simp only [step, hsnap]
  rw [if_neg hfreshSnap]
  rcases hnc with h | h
  · rw [h]
    simp [hp]
  · cases hcache : st.last_response_cache with
    | none => simp [hp]
    | some entry => simp [hp, h]

/-- C5, witness: both attempts time out; the dispatcher replies with a
`response` envelope holding the formatted timeout text and stays open. -/
theorem c5_completion_failure_as_response_witness :
    step (processOracle (fun _ => .timeout) "timed out") 5
        { last_response_cache := none, last_capture_time := 0,
          last_screenshot_data := some
            { screen_text := "compute it now", audio_text := "a",
              timestamp := 2 } }
        .solve
      = { reply := some (.response
            { screen_text := "compute it now", audio_text := "a",
              ai_response := validate_ai_response
                (format_error (exceptionText "timed out"
                  CompletionError.timeoutRaised)) }),
          state :=
            { last_response_cache := some
                { screen_text := "compute it now", audio_text := "a",
                  ai_response := validate_ai_response
                    (format_error (exceptionText "timed out"
                      CompletionError.timeoutRaised)) },
              last_capture_time := 5,
              last_screenshot_data := some
                { screen_text := "compute it now", audio_text := "a",
                  timestamp := 2 } },
          clientCalls := 2, closed := false } :=
  c5_completion_failure_as_response (fun _ => .timeout) "timed out" 5 _ _
    CompletionError.timeoutRaised 2 rfl (by decide) (Or.inl rfl)
    (by decide) rfl

/-- C10: a screen text whose stripped length is below 5 makes
`AIEngine.process` return the fixed no-text error string with zero
completion-client calls, whatever the attempt oracle and audio text;
and a `capture` of such a screen text is delivered by the dispatcher
inside a normal `response` envelope (never an `error` envelope) whose
answer has that string as explanation and empty code. -/
theorem c10_short_screen_text (screen : String)
    (outcomes : Nat → AttemptResult) (timeoutText : String)
    (hshort : (stripChars screen.data).length < 5) :
    process screen outcomes timeoutText
      = ("\u26a0\ufe0f Error: No text detected in screenshot.", 0)
    ∧ ∀ (audio : String) (now : Nat) (st : ServerState),
        step (processOracle outcomes timeoutText) now st
            (.capture screen audio)
          = { reply := some (.response
                { screen_text := screen, audio_text := audio,
                  ai_response :=
                    { explanation :=
                        "\u26a0\ufe0f Error: No text detected in screenshot.",
                      python_code := "" } }),
              state :=
                { last_response_cache := some
                    { screen_text := screen, audio_text := audio,
                      ai_response :=
                        { explanation :=
                            "\u26a0\ufe0f Error: No text detected in screenshot.",
                          python_code := "" } },
                  last_capture_time := now,
                  last_screenshot_data := some
                    { screen_text := screen, audio_text := audio,
                      timestamp := now } },
              clientCalls := 0, closed := false } := by
  have hp : process screen outcomes timeoutText
      = ("\u26a0\ufe0f Error: No text detected in screenshot.", 0) := by
    unfold process
    rw [if_pos hshort]
  have hv : validate_ai_response
      "\u26a0\ufe0f Error: No text detected in screenshot."
      = { explanation := "\u26a0\ufe0f Error: No text detected in screenshot.",
          python_code := "" } := by decide
  refine ⟨hp, fun audio now st => ?_⟩
  simp only [step, processOracle, hp, hv]

/-- C10, witness: `screen = "hi"` (stripped length 2) with an oracle
that would succeed: the engine short-circuits with zero completion
calls and the capture reply is a `response` envelope. -/
theorem c10_short_screen_text_witness :
    process "hi" (fun _ => .success "ignored") ""
      = ("\u26a0\ufe0f Error: No text detected in screenshot.", 0) ∧
    step (processOracle (fun _ => .success "ignored") "") 7 initState
        (.capture "hi" "some audio")
      = { reply := some (.response
            { screen_text := "hi", audio_text := "some audio",
              ai_response :=
                { explanation :=
                    "\u26a0\ufe0f Error: No text detected in screenshot.",
                  python_code := "" } }),
          state :=
            { last_response_cache := some
                { screen_text := "hi", audio_text := "some audio",
                  ai_response :=
                    { explanation :=
                        "\u26a0\ufe0f Error: No text detected in screenshot.",
                      python_code := "" } },
              last_capture_time := 7,
              last_screenshot_data := some
                { screen_text := "hi", audio_text := "some audio",
                  timestamp := 7 } },
          clientCalls := 0, closed := false } :=
  ⟨(c10_short_screen_text "hi" (fun _ => .success "ignored") ""
      (by decide)).1,
   (c10_short_screen_text "hi" (fun _ => .success "ignored") ""
      (by decide)).2 "some audio" 7 initState⟩

end CodeSkip
